import Mathlib

/-!
# Verification of the v402 Rust client request pipeline

A shallow embedding of `clients/rust/src/client.rs` (the `Client` facade:
`request`, `execute_request`, `handle_payment_required`, `batch_get`,
`close`, `update_stats`, `RequestGuard`) together with the contracts of the
collaborator modules (`payment`, `cache`, `config`, `error`) whose sources
are not part of the core tree; those collaborator pieces are modelled from
the specification and are marked as such in their doc comments.

Conventions of the embedding:
* async state is passed explicitly through a `St` record;
* the middleware chain terminating in the transport is modelled by a
  script (`St.script`) of wire responses consumed in order, with a
  `transport_calls` counter incremented on every entry into the chain;
* machine integers (`u64`, `u128`, `u16`) are modelled as `Nat`
  (no overflow is relevant to any statement proved here);
* decimal amount strings (`max_amount_required`, `payment_amount`) are
  modelled as the `Nat` they parse to, matching the numeric comparison
  the budget check performs;
* durations are modelled as abstract `Nat` ticks accumulated in `St.now`
  from the latency of each transport exchange.
-/

deriving instance DecidableEq for Except

namespace V402

/-- HTTP methods the claims exercise (`reqwest::Method` is an open set; the
pipeline only ever tests equality with `GET`). -/
inductive Method
  | GET
  | POST
  | HEAD
  deriving Repr, DecidableEq

/-- Settlement receipt decoded from the `X-PAYMENT-RESPONSE` header
(spec section 6: base64 JSON with fields success, transaction, network,
payer; `transaction` and `payer` are optional). -/
structure Settlement where
  success : Bool
  transaction_hash : Option String
  network : String
  payer : Option String
  deriving Repr, DecidableEq

/-- A header value: either an ordinary string, or a well-formed settlement
receipt in its wire encoding. The pipeline treats header values opaquely;
only the (modelled) settlement decoder distinguishes the two shapes. -/
inductive HVal
  | str (s : String)
  | sett (s : Settlement)
  deriving Repr, DecidableEq

/-- One payment option parsed from a 402 challenge body
(spec section 3, `PaymentRequirements`). -/
structure PaymentRequirements where
  network : String
  scheme : String
  payee : String
  max_amount_required : Nat
  asset : String
  nonce : String
  resource : String
  valid_after : Nat
  valid_before : Nat
  deriving Repr, DecidableEq

/-- A response body: either raw content bytes, or the structured form of a
402 challenge body `{"x402Version":., "accepts":[...]}` (spec section 6);
the structured constructor stands for the JSON the missing parser decodes. -/
inductive Body
  | raw (s : String)
  | challenge (accepts : List PaymentRequirements)
  deriving Repr, DecidableEq

/-- What the transport (the terminal handler of the middleware chain)
delivers: status, headers, body, plus the model's latency of the exchange. -/
structure WireResponse where
  status : Nat
  headers : List (String × HVal)
  body : Body
  latency : Nat
  deriving Repr, DecidableEq

/-- `types::PaymentResponse`: the response structure the client returns,
with the payment-derived fields the pipeline populates
(`client.rs` lines 427-441). -/
structure PaymentResponse where
  status : Nat
  headers : List (String × HVal)
  body : Body
  payment_made : Bool
  payment_amount : Option Nat
  network : Option String
  transaction_hash : Option String
  payer : Option String
  deriving Repr, DecidableEq

/-- A fresh `PaymentResponse` as produced by the transport before any
payment handling: payment fields at their defaults. -/
def toPaymentResponse (w : WireResponse) : PaymentResponse :=
  { status := w.status
    headers := w.headers
    body := w.body
    payment_made := false
    payment_amount := none
    network := none
    transaction_hash := none
    payer := none }

/-- An outgoing request (`http::Request`): method, url, header map, body. -/
structure Request where
  method : Method
  url : String
  headers : List (String × HVal)
  body : Option String
  deriving Repr, DecidableEq

/-- Error kinds of the library (spec section 7; `error.rs` is not in the
core tree — the constructors used by `client.rs` are `ClientClosed`,
`Timeout`, `Internal`, and the table of section 7 fixes the rest). -/
inductive Err
  | ClientClosed
  | Network (msg : String)
  | Timeout (url : String) (duration : Nat)
  | PaymentRequired
  | PaymentRejected (reason : String)
  | BudgetExceeded
  | UnsupportedNetwork
  | UnsupportedScheme
  | Signing
  | Parse
  | Internal (msg : String)
  deriving Repr, DecidableEq

/-- `ClientStats` (`client.rs` lines 100-122): request counters, payment
counters, running-average duration. -/
structure ClientStats where
  total_requests : Nat
  successful_requests : Nat
  failed_requests : Nat
  payments_made : Nat
  total_amount_paid : Nat
  average_duration : Nat
  deriving Repr, DecidableEq

/-- The all-zero statistics a fresh client starts from. -/
def stats0 : ClientStats :=
  { total_requests := 0
    successful_requests := 0
    failed_requests := 0
    payments_made := 0
    total_amount_paid := 0
    average_duration := 0 }

/-- A record in the payment-history ring (spec section 3, `PaymentRecord`);
only the fields claims inspect are carried. -/
structure PaymentRecord where
  network : String
  transaction_hash : Option String
  deriving Repr, DecidableEq

/-- A cached response together with the `auth_scope` tag the specification
(section 3, `CacheEntry`) attaches at insertion time. The tag is carried so
that scope-isolation statements can be expressed; the lookup path of
`client.rs` (line 342) never consults it. -/
structure CacheEntry where
  resp : PaymentResponse
  auth_scope : List (Option HVal)
  deriving Repr, DecidableEq

/-- Client configuration (`config.rs` is not in the core tree; these are
the fields `client.rs` reads: `auto_pay` at line 387, `timeout` at line
526, and the per-request cap the payment manager enforces). -/
structure Config where
  auto_pay : Bool
  max_amount_per_request : Nat
  timeout : Nat
  deriving Repr

/-- The environment of one client: its configuration snapshot and its
middleware stack, modelled as request transformers applied in registration
order before the terminal transport handler. -/
structure Env where
  cfg : Config
  mids : List (Request → Request)

/-- Mutable client-side state threaded through the pipeline: lifecycle
flags, the active-request counter, statistics, the response cache, metric
counters, the payment-history ring, the transport script, and the clock. -/
structure St where
  closed : Bool
  active_requests : Nat
  stats : ClientStats
  cache : List (String × CacheEntry)
  cache_hits : Nat
  requests_recorded : Nat
  records : List PaymentRecord
  script : List (Except Err WireResponse)
  transport_calls : Nat
  now : Nat
  chain_closed : Bool
  payment_closed : Bool
  cache_closed : Bool
  metrics_closed : Bool
  deriving Repr, DecidableEq

/-- A fresh open state with empty cache, history and script. -/
def st0 : St :=
  { closed := false
    active_requests := 0
    stats := stats0
    cache := []
    cache_hits := 0
    requests_recorded := 0
    records := []
    script := []
    transport_calls := 0
    now := 0
    chain_closed := false
    payment_closed := false
    cache_closed := false
    metrics_closed := false }

/-- First-match lookup in a header map (Rust `HashMap::get`; the insert
below conses, so the most recent binding wins). -/
def headerGet : List (String × HVal) → String → Option HVal
  | [], _ => none
  | (k, v) :: rest, name => if k = name then some v else headerGet rest name

/-- `CacheManager::get(url)` as invoked at `client.rs` line 342: the lookup
is keyed by the URL alone — the call site passes nothing else, so the entry
found (if any) is returned whatever `auth_scope` it was stored under. -/
def cacheLookup : List (String × CacheEntry) → String → Option CacheEntry
  | [], _ => none
  | (k, e) :: rest, url => if k = url then some e else cacheLookup rest url

/-- Modelled from the spec: the `auth_scope` of a request (section 4.3) is
a salted hash over the `X-PAYMENT` and `Authorization` headers; the hash is
modelled as the (injective) pair of those header values. `cache.rs` is not
in the core tree. -/
def auth_scope (headers : List (String × HVal)) : List (Option HVal) :=
  [headerGet headers "X-PAYMENT", headerGet headers "Authorization"]

/-- The request produced after the registered middlewares have run in
order (spec section 4.4; the stack's interceptors may mutate the request
before the terminal transport handler). -/
def applyMiddlewares (env : Env) (req : Request) : Request :=
  env.mids.foldl (fun r m => m r) req

/-- Modelled from the spec: `PaymentManager::parse_payment_requirements`
(`payment.rs` is not in the core tree). Section 4.2: parses the challenge
body; section 4.1 edge case: multiple options tie-break by array order, so
the first listed option is selected. A body that is not a challenge, or a
challenge listing no option, is a `Parse` failure (section 8: zero-byte
body on 402 gives a `Parse` error). -/
def parse_payment_requirements : Body → Except Err PaymentRequirements
  | .challenge (r :: _) => .ok r
  | .challenge [] => .error .Parse
  | .raw _ => .error .Parse

/-- Modelled from the spec: `PaymentManager::create_payment_header`
(`payment.rs` is not in the core tree). Section 4.2 and the section 7
table: the budget check precedes signing — an amount above
`max_amount_per_request` is `BudgetExceeded` with no signing attempted; an
amount at or under the cap yields the signed opaque header token. The
origin, validity-window, network and asset validations of section 4.1 step
5 live in the same missing module and are not modelled; no claim examined
here depends on them. -/
def create_payment_header (cfg : Config) (r : PaymentRequirements) : Except Err String :=
  if r.max_amount_required ≤ cfg.max_amount_per_request then
    .ok ("X402:" ++ r.network ++ ":" ++ toString r.max_amount_required)
  else
    .error .BudgetExceeded

/-- Modelled from the spec: `PaymentManager::process_settlement`
(`payment.rs` is not in the core tree). Section 4.2: decodes the
`X-PAYMENT-RESPONSE` header value (a malformed value is a decode failure);
section 4.1 step 7 and section 9: on a successfully decoded settlement
with `success = true` a `PaymentRecord` is appended to the history ring,
and on `success = false` no record is written. -/
def process_settlement (v : HVal) (records : List PaymentRecord) :
    Except Err Settlement × List PaymentRecord :=
  match v with
  | .str _ => (.error .Parse, records)
  | .sett stl =>
    (.ok stl,
      if stl.success then
        { network := stl.network, transaction_hash := stl.transaction_hash } :: records
      else records)

/-- One entry into the middleware chain terminating in the transport
(`middleware_stack.execute(request, &*http_client)`, `client.rs` lines 384
and 423-425): the registered middlewares transform the request, the
transport consumes the next scripted exchange. Every entry bumps
`transport_calls`; an exhausted script is a transport-level failure. -/
def middleware_execute (env : Env) (req : Request) (st : St) :
    Except Err PaymentResponse × St :=
  let _sent := applyMiddlewares env req
  match st.script with
  | [] => (.error (.Network "connection failed"),
           { st with transport_calls := st.transport_calls + 1 })
  | .error e :: rest =>
    (.error e, { st with script := rest, transport_calls := st.transport_calls + 1 })
  | .ok w :: rest =>
    (.ok (toPaymentResponse w),
     { st with script := rest
               transport_calls := st.transport_calls + 1
               now := st.now + w.latency })

/-- `Client::handle_payment_required` (`client.rs` lines 395-445): parse
the requirements, obtain the payment header, retry once through the chain
with `X-PAYMENT` attached, mark the retried response paid, and decode a
settlement receipt if one is present (decode failure is ignored). -/
def handle_payment_required (env : Env) (req : Request) (resp : PaymentResponse)
    (st : St) : Except Err PaymentResponse × St :=
  match parse_payment_requirements resp.body with
  | .error e => (.error e, st)
  | .ok reqs =>
    match create_payment_header env.cfg reqs with
    | .error e => (.error e, st)
    | .ok hdr =>
      let req' : Request := { req with headers := ("X-PAYMENT", HVal.str hdr) :: req.headers }
      match middleware_execute env req' st with
      | (.error e, st') => (.error e, st')
      | (.ok paid0, st') =>
        let paid : PaymentResponse :=
          { paid0 with payment_made := true
                       payment_amount := some reqs.max_amount_required
                       network := some reqs.network }
        match headerGet paid.headers "X-PAYMENT-RESPONSE" with
        | none => (.ok paid, st')
        | some v =>
          match process_settlement v st'.records with
          | (.ok stl, recs) =>
            (.ok { paid with transaction_hash := stl.transaction_hash, payer := stl.payer },
             { st' with records := recs })
          | (.error _, recs) => (.ok paid, { st' with records := recs })

/-- `Client::execute_request` (`client.rs` lines 367-392): build the
request, run it through the middleware chain, and branch into payment
handling exactly when the status is 402 and `auto_pay` is set; otherwise
the response is returned as-is. -/
def execute_request (env : Env) (method : Method) (url : String)
    (body : Option String) (st : St) : Except Err PaymentResponse × St :=
  let req : Request := { method := method, url := url, headers := [], body := body }
  match middleware_execute env req st with
  | (.error e, st') => (.error e, st')
  | (.ok resp, st') =>
    if resp.status = 402 ∧ env.cfg.auto_pay then
      handle_payment_required env req resp st'
    else
      (.ok resp, st')

/-- `Client::update_stats` (`client.rs` lines 764-795): bump the totals,
the success or failure counter, the payment counters when the response was
paid, and fold the duration into the running average exactly as the source
does (integer arithmetic, previous-average times previous-count). -/
def update_stats (result : Except Err PaymentResponse) (duration : Nat)
    (s : ClientStats) : ClientStats :=
  let s := { s with total_requests := s.total_requests + 1 }
  let s :=
    match result with
    | .ok r =>
      let s := { s with successful_requests := s.successful_requests + 1 }
      if r.payment_made then
        let s := { s with payments_made := s.payments_made + 1 }
        match r.payment_amount with
        | some a => { s with total_amount_paid := s.total_amount_paid + a }
        | none => s
      else s
    | .error _ => { s with failed_requests := s.failed_requests + 1 }
  if s.total_requests = 1 then
    { s with average_duration := duration }
  else
    { s with average_duration :=
        (s.average_duration * (s.total_requests - 1) + duration) / s.total_requests }

/-- `Client::is_closed` (`client.rs` lines 745-747). -/
def is_closed (st : St) : Bool :=
  st.closed

/-- `Client::request` (`client.rs` lines 319-364): refuse when closed,
increment the active-request counter (decremented on every exit path by
the RAII `RequestGuard`), probe the cache for GET requests and return a
hit recording only the cache-hit metric, otherwise execute through the
middleware stack, update statistics and record the request metric. -/
def request (env : Env) (method : Method) (url : String) (body : Option String)
    (st : St) : Except Err PaymentResponse × St :=
  if is_closed st then
    (.error .ClientClosed, st)
  else
    let start_time := st.now
    let st1 := { st with active_requests := st.active_requests + 1 }
    match method, cacheLookup st1.cache url with
    | .GET, some entry =>
      (.ok entry.resp,
       { st1 with cache_hits := st1.cache_hits + 1
                  active_requests := st1.active_requests - 1 })
    | _, _ =>
      let r := execute_request env method url body st1
      let duration := r.2.now - start_time
      let st2 := { r.2 with stats := update_stats r.1 duration r.2.stats }
      let st3 := { st2 with requests_recorded := st2.requests_recorded + 1 }
      (r.1, { st3 with active_requests := st3.active_requests - 1 })

/-- One batched URL (`client.rs` lines 519-529): the spawned task runs
`client.get(url)` under `tokio::time::timeout(config.timeout, ...)`,
converting an exceeded deadline into `Timeout(url, config.timeout)`. The
deadline is modelled post-hoc on the ticks the exchange consumed. -/
def batch_item (env : Env) (url : String) (st : St) :
    Except Err PaymentResponse × St :=
  let t0 := st.now
  let r := request env .GET url none st
  if env.cfg.timeout < r.2.now - t0 then
    (.error (.Timeout url env.cfg.timeout), r.2)
  else
    r

/-- The per-URL loop of `batch_get`, modelled sequentially (the semaphore
bounds concurrency; result order matches input order either way). -/
def batch_go (env : Env) : List String → St → List (Except Err PaymentResponse) × St
  | [], st => ([], st)
  | u :: us, st =>
    let r := batch_item env u st
    let rs := batch_go env us r.2
    (r.1 :: rs.1, rs.2)

/-- `Client::batch_get` (`client.rs` lines 493-542): refuse when closed,
then resolve every URL with per-entry errors isolated. -/
def batch_get (env : Env) (urls : List String) (st : St) :
    Except Err (List (Except Err PaymentResponse)) × St :=
  if is_closed st then
    (.error .ClientClosed, st)
  else
    let rs := batch_go env urls st
    (.ok rs.1, rs.2)

/-- The hard-coded drain deadline of `Client::close`
(`client.rs` line 706). -/
def shutdown_timeout_secs : Nat := 30

/-- `Client::close` (`client.rs` lines 698-742): the first call wins the
`swap` on the closed flag, waits for active requests to drain (a pure
wait: in this sequential model the timed polling loop changes no client
state) and then closes every subsystem; any later call sees the flag
already set and returns `Ok` immediately, re-running nothing. -/
def close (st : St) : Except Err Unit × St :=
  if st.closed then
    (.ok (), st)
  else
    (.ok (),
     { st with closed := true
               chain_closed := true
               payment_closed := true
               cache_closed := true
               metrics_closed := true })

/-- The state after a `close` call. -/
def close_state (st : St) : St :=
  (close st).2

/-! ## Helper lemmas about the pipeline pieces -/

theorem mw_tc (env : Env) (req : Request) (st : St) :
    (middleware_execute env req st).2.transport_calls = st.transport_calls + 1 := by
  unfold middleware_execute
  split <;> rfl

theorem mw_active (env : Env) (req : Request) (st : St) :
    (middleware_execute env req st).2.active_requests = st.active_requests := by
  unfold middleware_execute
  split <;> rfl

theorem mw_ok_plain (env : Env) (req : Request) (st : St) (r : PaymentResponse)
    (h : (middleware_execute env req st).1 = .ok r) :
    r.payment_made = false ∧ r.transaction_hash = none := by
  unfold middleware_execute at h
  dsimp only at h
  rcases hs : st.script with _ | ⟨a, rest⟩
  · rw [hs] at h
    simp at h
  · rw [hs] at h
    cases a with
    | error e => simp at h
    | ok w =>
      simp at h
      rw [← h]
      exact ⟨rfl, rfl⟩

theorem handle_tc (env : Env) (req : Request) (resp : PaymentResponse) (st : St) :
    (handle_payment_required env req resp st).2.transport_calls ≤ st.transport_calls + 1 := by
  unfold handle_payment_required
  split
  · exact Nat.le_succ _
  next reqs hparse =>
    split
    · exact Nat.le_succ _
    next hdr hcreate =>
      dsimp only
      split
      next e st' heq =>
        have h := mw_tc env { req with headers := ("X-PAYMENT", HVal.str hdr) :: req.headers } st
        rw [heq] at h
        exact Nat.le_of_eq h
      next paid0 st' heq =>
        have h := mw_tc env { req with headers := ("X-PAYMENT", HVal.str hdr) :: req.headers } st
        rw [heq] at h
        split
        · exact Nat.le_of_eq h
        · split <;> exact Nat.le_of_eq h

theorem handle_active (env : Env) (req : Request) (resp : PaymentResponse) (st : St) :
    (handle_payment_required env req resp st).2.active_requests = st.active_requests := by
  unfold handle_payment_required
  split
  · rfl
  next reqs hparse =>
    split
    · rfl
    next hdr hcreate =>
      dsimp only
      split
      next e st' heq =>
        have h := mw_active env { req with headers := ("X-PAYMENT", HVal.str hdr) :: req.headers } st
        rw [heq] at h
        exact h
      next paid0 st' heq =>
        have h := mw_active env { req with headers := ("X-PAYMENT", HVal.str hdr) :: req.headers } st
        rw [heq] at h
        split
        · exact h
        · split <;> exact h

theorem exec_tc (env : Env) (m : Method) (url : String) (body : Option String) (st : St) :
    (execute_request env m url body st).2.transport_calls ≤ st.transport_calls + 2 := by
  unfold execute_request
  dsimp only
  split
  next e st' heq =>
    have h := mw_tc env { method := m, url := url, headers := [], body := body } st
    rw [heq] at h
    rw [h]
    exact Nat.le_succ _
  next resp st' heq =>
    have h := mw_tc env { method := m, url := url, headers := [], body := body } st
    rw [heq] at h
    split
    · calc (handle_payment_required env _ resp st').2.transport_calls
          ≤ st'.transport_calls + 1 := handle_tc env _ resp st'
        _ = st.transport_calls + 2 := by rw [h]
    · rw [h]
      exact Nat.le_succ _

theorem exec_active (env : Env) (m : Method) (url : String) (body : Option String) (st : St) :
    (execute_request env m url body st).2.active_requests = st.active_requests := by
  unfold execute_request
  dsimp only
  split
  next e st' heq =>
    have h := mw_active env { method := m, url := url, headers := [], body := body } st
    rw [heq] at h
    exact h
  next resp st' heq =>
    have h := mw_active env { method := m, url := url, headers := [], body := body } st
    rw [heq] at h
    split
    · rw [handle_active env _ resp st', h]
    · exact h

/-! ## C5 -/

/-- C5: for every single invocation of the request pipeline, the middleware
chain terminating in the transport is entered at most twice — once for the
initial dispatch and at most once for the 402 payment retry; a second
payment retry never happens. -/
theorem transport_at_most_twice (env : Env) (m : Method) (url : String)
    (body : Option String) (st : St) :
    (request env m url body st).2.transport_calls ≤ st.transport_calls + 2 := by
  unfold request
  split
  · exact Nat.le_add_right _ _
  · dsimp only
    split
    · exact Nat.le_add_right _ _
    · exact exec_tc env _ url body _

/-! ## C6 -/

/-- C6: every completed call to the request pipeline — cache hit, success
or error on any exit path — leaves the `active_requests` counter exactly
where it was before the call: the increment at entry is paired with the
scoped guard's decrement. -/
theorem active_requests_balanced (env : Env) (m : Method) (url : String)
    (body : Option String) (st : St) :
    (request env m url body st).2.active_requests = st.active_requests := by
  unfold request
  split
  · rfl
  · dsimp only
    split
    · show st.active_requests + 1 - 1 = st.active_requests
      exact Nat.add_sub_cancel st.active_requests 1
    · dsimp only
      rw [exec_active]
      show st.active_requests + 1 - 1 = st.active_requests
      exact Nat.add_sub_cancel st.active_requests 1

/-! ## C7 -/

theorem close_state_closed (st : St) : (close_state st).closed = true := by
  unfold close_state close
  split
  next h => simpa using h
  next h => rfl

theorem close_state_idem (st : St) : close_state (close_state st) = close_state st := by
  have h := close_state_closed st
  unfold close_state close
  by_cases hc : st.closed
  · simp [hc]
  · simp [hc]

/-- C7: `close` is idempotent — the first call flips the closed flag and
closes every subsystem, any later call returns `Ok` immediately without
re-running shutdown, N calls reach the same terminal state as one, and
`is_closed` reports `true` after `close` returns. (The timed 30-second
drain wait changes no client state in this sequential model; the hard-coded
deadline is `shutdown_timeout_secs`.) -/
theorem close_props (st : St) :
    (close st).1 = .ok () ∧
    is_closed (close_state st) = true ∧
    close (close_state st) = (.ok (), close_state st) ∧
    (∀ n : Nat, Nat.iterate close_state (n + 1) st = close_state st) ∧
    shutdown_timeout_secs = 30 := by
  refine ⟨?_, close_state_closed st, ?_, ?_, rfl⟩
  · unfold close
    split <;> rfl
  · have h := close_state_closed st
    unfold close
    rw [if_pos h]
  · intro n
    induction n with
    | zero => rfl
    | succ n ih =>
      rw [Function.iterate_succ_apply', ih, close_state_idem]

/-! ## Scenario material shared by the challenge-handling claims -/

/-- The single payment option of the spec's challenge scenario
(section 8 scenario 2), with the amount left as a parameter. -/
def budget_req (a : Nat) : PaymentRequirements :=
  { network := "base"
    scheme := "exact"
    payee := "0xabc"
    max_amount_required := a
    asset := "0xUSDC"
    nonce := "n1"
    resource := "http://h/b"
    valid_after := 0
    valid_before := 9999999999 }

/-- A 402 challenge response whose body offers `budget_req a`. -/
def challenge402 (a : Nat) : WireResponse :=
  { status := 402, headers := [], body := .challenge [budget_req a], latency := 0 }

/-- The 200 response to the paid retry, carrying no settlement receipt. -/
def paid200 : WireResponse :=
  { status := 200, headers := [], body := .raw "paid-content", latency := 0 }

/-- A client with auto-pay on, no middleware, and the given per-request cap. -/
def budget_env (cap : Nat) : Env :=
  { cfg := { auto_pay := true, max_amount_per_request := cap, timeout := 30 }, mids := [] }

/-- The spec's challenge scenario run against a cap: POST `http://h/b`, the
server answers with a 402 challenge demanding `a`, then 200 on the retry. -/
def budget_run (cap a : Nat) : Except Err PaymentResponse × St :=
  request (budget_env cap) .POST "http://h/b" (some "data")
    { st0 with script := [.ok (challenge402 a), .ok paid200] }

/-! ## C1 -/

/-- C1: a challenge whose `max_amount_required` equals the configured
`max_amount_per_request` is accepted and paid, while a demand one unit over
the cap makes the call return `BudgetExceeded` with no signing attempted,
the transport entered exactly once and no `PaymentRecord` appended. -/
theorem budget_boundary (cap : Nat) :
    (budget_run cap cap).1 =
      .ok { status := 200, headers := [], body := .raw "paid-content",
            payment_made := true, payment_amount := some cap,
            network := some "base", transaction_hash := none, payer := none } ∧
    (budget_run cap (cap + 1)).1 = .error .BudgetExceeded ∧
    (budget_run cap (cap + 1)).2.transport_calls = 1 ∧
    (budget_run cap (cap + 1)).2.records = [] := by
  refine ⟨?_, ?_, ?_, ?_⟩ <;>
    simp [budget_run, request, is_closed, st0, stats0, execute_request,
          middleware_execute, handle_payment_required, parse_payment_requirements,
          create_payment_header, budget_env, budget_req, challenge402, paid200,
          toPaymentResponse, headerGet, applyMiddlewares, cacheLookup, update_stats,
          Nat.add_one_le_iff, lt_self_iff_false]

/-! ## C3 -/

/-- The retried (paid) request is answered with 402 again and no receipt. -/
def denied402 : WireResponse :=
  { status := 402, headers := [], body := .raw "denied", latency := 0 }

/-- The spec's rejected-retry scenario (section 8 scenario 4): challenge,
payment, and a second 402 on the paid retry, under an ample cap. -/
def rejected_run : Except Err PaymentResponse × St :=
  request (budget_env 10000) .POST "http://h/b" (some "data")
    { st0 with script := [.ok (challenge402 1000), .ok denied402] }

/-- C3 (code behaviour at the failing input): when the paid retry is
answered with 402 again, `handle_payment_required` never inspects the
retried status — the call returns `Ok` with the 402 response marked
`payment_made = true` instead of a `PaymentRejected` error. The transport
is entered exactly twice and no record is appended, but the result is a
success, not the error the specification requires. -/
theorem rejected_retry_code_behavior :
    rejected_run.1 =
      .ok { status := 402, headers := [], body := .raw "denied",
            payment_made := true, payment_amount := some 1000,
            network := some "base", transaction_hash := none, payer := none } ∧
    rejected_run.2.transport_calls = 2 ∧
    rejected_run.2.records = [] ∧
    (∀ reason, rejected_run.1 ≠ .error (.PaymentRejected reason)) := by
  have h : rejected_run.1 =
      .ok { status := 402, headers := [], body := .raw "denied",
            payment_made := true, payment_amount := some 1000,
            network := some "base", transaction_hash := none, payer := none } := by
    rfl
  refine ⟨h, rfl, rfl, ?_⟩
  intro reason
  rw [h]
  simp

/-! ## C4 -/

/-- A client with automatic payment disabled. -/
def autopay_off_env : Env :=
  { cfg := { auto_pay := false, max_amount_per_request := 1000000, timeout := 30 }, mids := [] }

/-- A challenge received while `auto_pay = false`. -/
def autopay_off_run : Except Err PaymentResponse × St :=
  request autopay_off_env .POST "http://h/b" (some "data")
    { st0 with script := [.ok (challenge402 1000)] }

/-- C4 counterexample: with `auto_pay = false` a 402 response is NOT
surfaced as a `PaymentRequired` error — `execute_request` takes the
`otherwise return the response` branch and the call succeeds with the 402
response itself. -/
theorem autopay_off_counterexample :
    autopay_off_run.1 = .ok (toPaymentResponse (challenge402 1000)) ∧
    (toPaymentResponse (challenge402 1000)).status = 402 ∧
    (toPaymentResponse (challenge402 1000)).payment_made = false ∧
    autopay_off_run.1 ≠ .error .PaymentRequired := by
  refine ⟨rfl, rfl, rfl, ?_⟩
  intro h
  have h0 : autopay_off_run.1 = .ok (toPaymentResponse (challenge402 1000)) := rfl
  rw [h0] at h
  exact Except.noConfusion h

/-- C4 as amended: for every request answered with a 402 while
`auto_pay = false`, the pipeline returns the challenge response itself as
an `Ok` value (section 4.1 step 4: otherwise return the response); no
error is raised. -/
theorem autopay_off_amended (env : Env) (st : St) (method : Method) (url : String)
    (body : Option String) (w : WireResponse) (rest : List (Except Err WireResponse))
    (hclosed : st.closed = false)
    (hauto : env.cfg.auto_pay = false)
    (hscript : st.script = .ok w :: rest)
    (hcache : method = Method.GET → cacheLookup st.cache url = none) :
    (request env method url body st).1 = .ok (toPaymentResponse w) := by
  cases method with
  | GET =>
    simp [request, is_closed, hclosed, execute_request, middleware_execute,
          hscript, toPaymentResponse, hauto, hcache rfl]
  | POST =>
    simp [request, is_closed, hclosed, execute_request, middleware_execute,
          hscript, toPaymentResponse, hauto]
  | HEAD =>
    simp [request, is_closed, hclosed, execute_request, middleware_execute,
          hscript, toPaymentResponse, hauto]

/-- C4 amended, instantiated: the concrete auto-pay-off scenario returns
the 402 challenge response as a success. -/
theorem autopay_off_amended_witness :
    (({ st0 with script := [.ok (challenge402 1000)] } : St).closed = false) ∧
    (request autopay_off_env .POST "http://h/x" (some "data")
        { st0 with script := [.ok (challenge402 1000)] }).1 =
      .ok (toPaymentResponse (challenge402 1000)) :=
  ⟨rfl,
   autopay_off_amended autopay_off_env { st0 with script := [.ok (challenge402 1000)] }
     .POST "http://h/x" (some "data") (challenge402 1000) [] rfl rfl rfl
     (fun h => Method.noConfusion h)⟩

/-! ## C2 -/

/-- The response cached by an earlier unauthenticated GET (spec section 8
scenario 5). -/
def free_resp : PaymentResponse :=
  { status := 200, headers := [], body := .raw "free", payment_made := false,
    payment_amount := none, network := none, transaction_hash := none, payer := none }

/-- The cache entry for `http://h/c`, tagged with the empty auth scope the
unauthenticated storer carried. -/
def c2_entry : CacheEntry :=
  { resp := free_resp, auth_scope := auth_scope [] }

/-- A middleware contributing a bearer token, as in the library's own
`AuthMiddleware` example: the only way a caller attaches authorization
headers to a request. -/
def bearer_mid : Request → Request :=
  fun r => { r with headers := ("Authorization", HVal.str "Bearer T") :: r.headers }

/-- A client whose middleware attaches `Authorization: Bearer T`. -/
def c2_env : Env :=
  { cfg := { auto_pay := true, max_amount_per_request := 1000000, timeout := 30 },
    mids := [bearer_mid] }

/-- The state holding the unauthenticated entry for `http://h/c`. -/
def c2_st : St :=
  { st0 with cache := [("http://h/c", c2_entry)] }

/-- The bare request a GET of `http://h/c` starts from. -/
def c2_request : Request :=
  { method := .GET, url := "http://h/c", headers := [], body := none }

/-- C2 counterexample: the authorized caller's auth scope differs from the
scope the entry was stored under, yet the GET is served from the cache —
the entry stored under the other scope is returned and the transport is
never entered. The cache probe at `client.rs` line 342 passes only the
URL, so the callers' authorization can play no part in the lookup. -/
theorem cache_scope_counterexample :
    auth_scope (applyMiddlewares c2_env c2_request).headers ≠ c2_entry.auth_scope ∧
    (request c2_env .GET "http://h/c" none c2_st).1 = .ok c2_entry.resp ∧
    (request c2_env .GET "http://h/c" none c2_st).2.transport_calls = 0 := by
  refine ⟨by decide, rfl, rfl⟩

/-- C2 as amended: the response cache is keyed by URL alone — whenever an
entry for the URL is present, a GET is served that entry regardless of the
auth scope it was stored under and regardless of the requester's own
authorization headers, without entering the transport. -/
theorem cache_scope_amended (env : Env) (st : St) (url : String) (e : CacheEntry)
    (hclosed : st.closed = false)
    (hhit : cacheLookup st.cache url = some e) :
    (request env .GET url none st).1 = .ok e.resp ∧
    (request env .GET url none st).2.transport_calls = st.transport_calls := by
  constructor <;> simp [request, is_closed, hclosed, hhit]

/-- C2 amended, instantiated on the scenario state: the entry stored under
the empty auth scope is served to the bearer-token client. -/
theorem cache_scope_amended_witness :
    (c2_st.closed = false) ∧
    (cacheLookup c2_st.cache "http://h/c" = some c2_entry) ∧
    (request c2_env .GET "http://h/c" none c2_st).1 = .ok c2_entry.resp ∧
    (request c2_env .GET "http://h/c" none c2_st).2.transport_calls = c2_st.transport_calls :=
  ⟨rfl, rfl,
   (cache_scope_amended c2_env c2_st "http://h/c" c2_entry rfl rfl).1,
   (cache_scope_amended c2_env c2_st "http://h/c" c2_entry rfl rfl).2⟩

/-! ## C10 -/

/-- A cached entry used to exercise the cache-hit frame condition. -/
def c10_entry : CacheEntry :=
  { resp := { status := 200, headers := [], body := .raw "ok", payment_made := false,
              payment_amount := none, network := none, transaction_hash := none,
              payer := none },
    auth_scope := auth_scope [] }

/-- A state with traffic already recorded, holding `c10_entry`. -/
def c10_st : St :=
  { st0 with
      cache := [("http://h/a", c10_entry)]
      stats := { total_requests := 7, successful_requests := 5, failed_requests := 2,
                 payments_made := 1, total_amount_paid := 1000, average_duration := 3 }
      cache_hits := 4
      requests_recorded := 7
      records := [{ network := "base", transaction_hash := some "0xdead" }] }

/-- C10: a GET answered from the cache returns before statistics are
updated — every `ClientStats` field, the request metric, the payment
history and the transport counter are unchanged, and the only metric
recorded is the cache-hit counter. -/
theorem cache_hit_stats_frame (env : Env) (st : St) (url : String) (e : CacheEntry)
    (hclosed : st.closed = false)
    (hhit : cacheLookup st.cache url = some e) :
    (request env .GET url none st).1 = .ok e.resp ∧
    (request env .GET url none st).2.stats = st.stats ∧
    (request env .GET url none st).2.cache_hits = st.cache_hits + 1 ∧
    (request env .GET url none st).2.requests_recorded = st.requests_recorded ∧
    (request env .GET url none st).2.records = st.records ∧
    (request env .GET url none st).2.transport_calls = st.transport_calls := by
  refine ⟨?_, ?_, ?_, ?_, ?_, ?_⟩ <;> simp [request, is_closed, hclosed, hhit]

/-- C10 instantiated: the populated state keeps exactly its statistics and
history on a cache hit, with only the hit counter bumped. -/
theorem cache_hit_stats_frame_witness :
    (c10_st.closed = false) ∧
    (cacheLookup c10_st.cache "http://h/a" = some c10_entry) ∧
    (request c2_env .GET "http://h/a" none c10_st).2.stats = c10_st.stats ∧
    (request c2_env .GET "http://h/a" none c10_st).2.cache_hits = c10_st.cache_hits + 1 ∧
    (request c2_env .GET "http://h/a" none c10_st).2.requests_recorded = c10_st.requests_recorded :=
  ⟨rfl, rfl,
   (cache_hit_stats_frame c2_env c10_st "http://h/a" c10_entry rfl rfl).2.1,
   (cache_hit_stats_frame c2_env c10_st "http://h/a" c10_entry rfl rfl).2.2.1,
   (cache_hit_stats_frame c2_env c10_st "http://h/a" c10_entry rfl rfl).2.2.2.1⟩

/-! ## C9 -/

/-- A 200 response whose exchange takes 100 ticks. -/
def slow200 : WireResponse :=
  { status := 200, headers := [], body := .raw "ok", latency := 100 }

/-- A client with a 30-tick deadline and auto-pay on. -/
def c9_env : Env :=
  { cfg := { auto_pay := true, max_amount_per_request := 1000000, timeout := 30 }, mids := [] }

/-- A state whose transport will take 100 ticks to answer. -/
def c9_st : St :=
  { st0 with script := [.ok slow200] }

/-- C9 counterexample: a direct `get` whose exchange takes 100 ticks
against a 30-tick configured timeout still completes with `Ok` — no
`Timeout` error is possible on the direct path, because only `batch_get`
wraps the call in the deadline; on the very same input the batch path does
return `Timeout(url, 30)`. -/
theorem timeout_counterexample :
    (request c9_env .GET "http://h/a" none c9_st).1 = .ok (toPaymentResponse slow200) ∧
    (request c9_env .GET "http://h/a" none c9_st).2.now - c9_st.now = 100 ∧
    c9_env.cfg.timeout = 30 ∧
    (∀ u d, (request c9_env .GET "http://h/a" none c9_st).1 ≠ .error (.Timeout u d)) ∧
    (batch_get c9_env ["http://h/a"] c9_st).1 = .ok [.error (.Timeout "http://h/a" 30)] := by
  refine ⟨rfl, rfl, rfl, ?_, rfl⟩
  intro u d h
  have h0 : (request c9_env .GET "http://h/a" none c9_st).1 =
      .ok (toPaymentResponse slow200) := rfl
  rw [h0] at h
  exact Except.noConfusion h

/-- C9 as amended: the per-request deadline exists only on the batch path —
`batch_get` wraps each `get` in `timeout(config.timeout, ...)` and yields
`Timeout(url, config.timeout)` for an entry whose exchange outlives the
deadline, while the direct `get`/`post`/`request` path carries no such
wrapper. -/
theorem timeout_amended (env : Env) (st : St) (url : String) (w : WireResponse)
    (hclosed : st.closed = false)
    (hcache : cacheLookup st.cache url = none)
    (hscript : st.script = [.ok w])
    (hstatus : w.status ≠ 402)
    (hlat : env.cfg.timeout < w.latency) :
    (batch_get env [url] st).1 = .ok [.error (.Timeout url env.cfg.timeout)] := by
  simp [batch_get, batch_go, batch_item, is_closed, hclosed, request, hcache,
        execute_request, middleware_execute, hscript, toPaymentResponse, hstatus, hlat]

/-- C9 amended, instantiated on the slow-transport scenario. -/
theorem timeout_amended_witness :
    (c9_st.closed = false) ∧
    (cacheLookup c9_st.cache "http://h/a" = none) ∧
    (c9_env.cfg.timeout < slow200.latency) ∧
    (batch_get c9_env ["http://h/a"] c9_st).1 =
      .ok [.error (.Timeout "http://h/a" c9_env.cfg.timeout)] :=
  ⟨rfl, rfl, by decide,
   timeout_amended c9_env c9_st "http://h/a" slow200 rfl rfl rfl (by decide) (by decide)⟩

/-! ## C8 -/

/-- The part of the claimed response invariant the code maintains:
`payment_made` implies `network` is populated, and `transaction_hash` is
populated only if the response carries a settlement receipt. -/
def RespInv (r : PaymentResponse) : Prop :=
  (r.payment_made = true → r.network.isSome = true) ∧
  (r.transaction_hash.isSome = true → (headerGet r.headers "X-PAYMENT-RESPONSE").isSome = true)

theorem cacheLookup_mem (c : List (String × CacheEntry)) (url : String) (e : CacheEntry)
    (h : cacheLookup c url = some e) : ∃ k, (k, e) ∈ c := by
  induction c with
  | nil => simp [cacheLookup] at h
  | cons p rest ih =>
    obtain ⟨k, v⟩ := p
    rw [cacheLookup] at h
    split at h
    next hk =>
      obtain rfl : v = e := by simpa using h
      exact ⟨k, List.mem_cons_self _ _⟩
    next hk =>
      obtain ⟨k', hk'⟩ := ih h
      exact ⟨k', List.mem_cons_of_mem _ hk'⟩

theorem handle_ok_inv (env : Env) (req : Request) (resp : PaymentResponse) (st : St)
    (r : PaymentResponse)
    (h : (handle_payment_required env req resp st).1 = .ok r) : RespInv r := by
  unfold handle_payment_required at h
  split at h
  · simp at h
  next reqs hparse =>
    split at h
    · simp at h
    next hdr hcreate =>
      dsimp only at h
      split at h
      next e st' heq => simp at h
      next paid0 st' heq =>
        have hplain := mw_ok_plain env
          { req with headers := ("X-PAYMENT", HVal.str hdr) :: req.headers } st paid0
          (by rw [heq])
        split at h
        next hget =>
          obtain rfl : ({ paid0 with
                          payment_made := true,
                          payment_amount := some reqs.max_amount_required,
                          network := some reqs.network } : PaymentResponse) = r := by
            simpa using h
          refine ⟨fun _ => rfl, fun htx => ?_⟩
          have htx' : paid0.transaction_hash.isSome = true := htx
          rw [hplain.2] at htx'
          simp at htx'
        next v hget =>
          split at h
          next stl recs hps =>
            obtain rfl : ({ paid0 with
                            payment_made := true,
                            payment_amount := some reqs.max_amount_required,
                            network := some reqs.network,
                            transaction_hash := stl.transaction_hash,
                            payer := stl.payer } : PaymentResponse) = r := by
              simpa using h
            refine ⟨fun _ => rfl, fun _ => ?_⟩
            have hh : (headerGet paid0.headers "X-PAYMENT-RESPONSE").isSome = true := by
              rw [hget]
              rfl
            exact hh
          next a recs hps =>
            obtain rfl : ({ paid0 with
                            payment_made := true,
                            payment_amount := some reqs.max_amount_required,
                            network := some reqs.network } : PaymentResponse) = r := by
              simpa using h
            refine ⟨fun _ => rfl, fun _ => ?_⟩
            have hh : (headerGet paid0.headers "X-PAYMENT-RESPONSE").isSome = true := by
              rw [hget]
              rfl
            exact hh

theorem exec_ok_inv (env : Env) (m : Method) (url : String) (body : Option String)
    (st : St) (r : PaymentResponse)
    (h : (execute_request env m url body st).1 = .ok r) : RespInv r := by
  unfold execute_request at h
  dsimp only at h
  split at h
  next e st' heq => simp at h
  next resp st' heq =>
    split at h
    · exact handle_ok_inv env _ resp st' r h
    · have hplain := mw_ok_plain env
        { method := m, url := url, headers := [], body := body } st resp (by rw [heq])
      obtain rfl : resp = r := by simpa using h
      constructor
      · intro hp
        rw [hplain.1] at hp
        exact absurd hp (by simp)
      · intro htx
        rw [hplain.2] at htx
        simp at htx

/-- C8 as amended: every response the pipeline returns satisfies
`payment_made → network` populated, and `transaction_hash` populated ONLY
IF the counterparty returned a settlement receipt (the converse of the
claimed iff fails: a receipt that does not decode, or decodes without a
transaction hash, leaves `transaction_hash` empty). Cached entries are
assumed to satisfy the same invariant, having been produced by the
pipeline. -/
theorem payment_fields_amended (env : Env) (m : Method) (url : String)
    (body : Option String) (st : St)
    (hclosed : st.closed = false)
    (hcache : ∀ p ∈ st.cache, RespInv p.2.resp) :
    ∀ r, (request env m url body st).1 = .ok r → RespInv r := by
  intro r h
  cases m with
  | GET =>
    cases hlook : cacheLookup st.cache url with
    | some entry =>
      simp [request, is_closed, hclosed, hlook] at h
      obtain ⟨k, hk⟩ := cacheLookup_mem _ _ _ hlook
      rw [← h]
      exact hcache (k, entry) hk
    | none =>
      simp only [request, is_closed, hclosed, Bool.false_eq_true, if_false, hlook] at h
      exact exec_ok_inv _ _ _ _ _ _ h
  | POST =>
    simp only [request, is_closed, hclosed, Bool.false_eq_true, if_false] at h
    exact exec_ok_inv _ _ _ _ _ _ h
  | HEAD =>
    simp only [request, is_closed, hclosed, Bool.false_eq_true, if_false] at h
    exact exec_ok_inv _ _ _ _ _ _ h

/-- The receipt the counterparty returns in the counterexample run:
settlement succeeded but no transaction hash was reported (the field is
optional on the wire, spec section 6). -/
def c8_receipt : Settlement :=
  { success := true, transaction_hash := none, network := "base", payer := some "0xpayer" }

/-- The 200 answer to the paid retry, carrying the hash-less receipt. -/
def c8_paid200 : WireResponse :=
  { status := 200, headers := [("X-PAYMENT-RESPONSE", HVal.sett c8_receipt)],
    body := .raw "paid-content", latency := 0 }

/-- State for the C8 run: challenge then receipt-bearing 200. -/
def c8_st : St :=
  { st0 with script := [.ok (challenge402 1000), .ok c8_paid200] }

/-- The C8 scenario run. -/
def c8_run : Except Err PaymentResponse × St :=
  request (budget_env 10000) .POST "http://h/b" (some "data") c8_st

/-- The response the C8 run returns. -/
def c8_resp : PaymentResponse :=
  { status := 200, headers := [("X-PAYMENT-RESPONSE", HVal.sett c8_receipt)],
    body := .raw "paid-content", payment_made := true, payment_amount := some 1000,
    network := some "base", transaction_hash := none, payer := some "0xpayer" }

/-- C8 counterexample to the claimed iff: the counterparty DID return a
settlement receipt on the paid response, yet `transaction_hash` is not
populated, because the decoded settlement carries no transaction hash. -/
theorem settlement_iff_counterexample :
    c8_run.1 = .ok c8_resp ∧
    c8_resp.payment_made = true ∧
    headerGet c8_resp.headers "X-PAYMENT-RESPONSE" = some (HVal.sett c8_receipt) ∧
    c8_resp.transaction_hash = none :=
  ⟨rfl, rfl, rfl, rfl⟩

/-- C8 amended, instantiated on the hash-less receipt run. -/
theorem payment_fields_amended_witness :
    (c8_st.closed = false) ∧
    (∀ p ∈ c8_st.cache, RespInv p.2.resp) ∧
    RespInv c8_resp :=
  ⟨rfl, by simp [c8_st, st0],
   payment_fields_amended (budget_env 10000) .POST "http://h/b" (some "data") c8_st
     rfl (by simp [c8_st, st0]) c8_resp rfl⟩

end V402
